import Mathlib

/-!
# Verification of the Monte Carlo CLT demo engine

This development formalises the simulation engine behind the notebook
`demo_CLT.ipynb` (five interactive demonstrations of the Central Limit
Theorem and of parametric vs. nonparametric hypothesis tests).

The repository ships the notebooks, which call into a utility module
`demo_utils` (binomial_interactive, CLT_interactive, cauchy_CLT_interactive,
paired_sample_interactive, outlier_interactive).  The notebook cells and
their documented parameter lists are embedded below as data; the engine
itself (`demo_utils`) is not part of the repository snapshot, so its
components — Distribution Provider, Sampler, Statistic Reducer, Trial
Runner, Aggregator — are modelled from the specification.  Real numbers
are modelled by `ℚ`, machine integers by `ℤ`/`ℕ`, and the pseudo-random
generator by an explicit linear-congruential state so that every
definition is executable.
-/

namespace CLTDemo

/-! ## Notebook embedding

The engine calls made by the notebook code cells, and the per-demo
parameter lists documented in the notebook markdown.  Each `NotebookCall`
records the called function, the number of arguments passed, and whether
the returned value is bound to a name. -/

structure NotebookCall where
  fn : String
  argCount : Nat
  resultBound : Bool
deriving DecidableEq

/-- The engine entry-point calls appearing in the notebook's code cells,
in cell order: each is `demo_utils.<fn>();` — zero arguments, value not
bound to any name. -/
def engineCalls : List NotebookCall :=
  [⟨"binomial_interactive", 0, false⟩,
   ⟨"CLT_interactive", 0, false⟩,
   ⟨"cauchy_CLT_interactive", 0, false⟩,
   ⟨"paired_sample_interactive", 0, false⟩,
   ⟨"outlier_interactive", 0, false⟩]

/-- Parameters documented for the binomial demo in the notebook markdown. -/
def binomialParams : List String := ["n", "p"]

/-- Parameters documented for the general CLT demo in the notebook markdown. -/
def cltParams : List String := ["distribution", "outer_n", "inner_n", "density"]

/-- Parameters documented for the paired-sample demo in the notebook markdown. -/
def pairedParams : List String := ["mu1", "sigma1", "mu2", "sigma2", "n"]

/-- Parameters documented for the outlier demo in the notebook markdown. -/
def outlierParams : List String := ["n1", "n2", "n3", "mu", "sigma"]

/-- The configuration record the spec (§6) enumerates for the binomial demo. -/
def specBinomialConfig : List String := ["n", "p"]

/-- The configuration record the spec (§6) enumerates for the general CLT demo. -/
def specCLTConfig : List String := ["distribution", "outer_n", "inner_n"]

/-- The configuration record the spec (§6) enumerates for the paired-test demo. -/
def specPairedConfig : List String := ["mu1", "sigma1", "mu2", "sigma2", "n", "alpha"]

/-- The configuration record the spec (§6) enumerates for the outlier demo. -/
def specOutlierConfig : List String := ["n1", "n2", "n3", "mu", "sigma", "alpha"]

/-! ## Pseudo-random generator

Modelled from the spec: the engine's sampling relies on a pseudo-random
generator whose state is advanced monotonically by each draw and which can
be seeded for deterministic tests (§4.2, §9).  We use an explicit
linear-congruential generator over `Nat`. -/

/-- One step of the linear-congruential generator. -/
def lcgNext (s : Nat) : Nat := (1103515245 * s + 12345) % 2 ^ 31

/-- Generator state: the current LCG word. -/
structure Gen where
  state : Nat
deriving DecidableEq

/-- Seed injection: construct a generator from a fixed seed. -/
def mkGen (seed : Nat) : Gen := ⟨seed % 2 ^ 31⟩

/-- Draw `n` raw generator words, returning them with the advanced state. -/
def rawDraw : Gen → Nat → List Nat × Gen
  | g, 0 => ([], g)
  | g, n + 1 =>
      let v := lcgNext g.state
      let rest := rawDraw ⟨v⟩ n
      (v :: rest.1, rest.2)

/-- Map a raw generator word to a rational in `[0, 1)`. -/
def toUnit (r : Nat) : ℚ := (r % 2 ^ 31 : Nat) / 2 ^ 31

/-! ## Distribution Provider and Sampler

Modelled from the spec: a `DistributionSpec` identifies a family from a
closed set plus its parameters, each constrained to its natural domain
(§4.1); a Sampler draws a fixed-size sample of variates (§4.2).  The
spec does not pin down the variate transforms (numerical distributional
shape is out of scope of every claim); each family maps raw generator
words to values by a concrete rational transform. -/

inductive DistributionSpec where
  | binomial (n : ℤ) (p : ℚ)
  | normal (mu sigma : ℚ)
  | cauchy (x0 gamma : ℚ)
  | exponential (rate : ℚ)
  | uniform (a b : ℚ)
deriving DecidableEq

/-- Domain constraints of each family's parameters (§4.1): binomial
`p ∈ [0,1]` and `n` positive, scale parameters strictly positive, a
uniform interval nonempty. -/
def DistributionSpec.valid : DistributionSpec → Bool
  | .binomial n p => decide (0 < n) && decide (0 ≤ p) && decide (p ≤ 1)
  | .normal _ sigma => decide (0 < sigma)
  | .cauchy _ gamma => decide (0 < gamma)
  | .exponential rate => decide (0 < rate)
  | .uniform a b => decide (a < b)

/-- One variate of the family from a raw generator word: the binomial
counts threshold successes over derived uniforms, the continuous families
apply a location–scale transform of derived uniforms. -/
def DistributionSpec.variate : DistributionSpec → Nat → ℚ
  | .binomial n p, r =>
      ((List.range n.toNat).countP (fun i => decide (toUnit (lcgNext^[i + 1] r) < p)) : ℚ)
  | .normal mu sigma, r =>
      mu + sigma * (toUnit r + toUnit (lcgNext r) + toUnit (lcgNext (lcgNext r)) - 3 / 2)
  | .cauchy x0 gamma, r =>
      x0 + gamma * (toUnit r - 1 / 2) / (toUnit r * (1 - toUnit r) + 1 / 4)
  | .exponential rate, r =>
      (toUnit r / (1 - toUnit r)) / rate
  | .uniform a b, r =>
      a + (b - a) * toUnit r

/-- Draw `n` variates of `spec`, threading the generator state. -/
def variates (spec : DistributionSpec) (g : Gen) (n : Nat) : List ℚ × Gen :=
  let r := rawDraw g n
  (r.1.map spec.variate, r.2)

/-- The `k`-th variate of the stream a given seed determines: sampling is
a pure function of the injected seed and the stream position. -/
def streamVariate (spec : DistributionSpec) (seed : Nat) (k : Nat) : ℚ :=
  spec.variate (lcgNext^[k + 1] (seed % 2 ^ 31))

/-- Modelled from the spec: the error raised for a configuration value
outside its domain (§7). -/
structure InvalidParameterError where
  msg : String
deriving DecidableEq

/-- Modelled from the spec: `draw(n) -> Sample of length n`, failing with
`InvalidParameterError` if the distribution parameters are out of domain
or `n <= 0` (§4.2). -/
def Sampler.draw (spec : DistributionSpec) (g : Gen) (n : ℤ) :
    Except InvalidParameterError (List ℚ × Gen) :=
  if spec.valid = true then
    if 0 < n then Except.ok (variates spec g n.toNat)
    else Except.error ⟨"draw: sample size must be positive"⟩
  else Except.error ⟨"draw: distribution parameter outside its domain"⟩

/-- Whether an `Except` result is a success. -/
def exceptOk {ε α : Type} : Except ε α → Bool
  | .ok _ => true
  | .error _ => false

/-- The sample a successful draw returns, if any. -/
def okSample (e : Except InvalidParameterError (List ℚ × Gen)) : Option (List ℚ) :=
  match e with
  | .ok r => some r.1
  | .error _ => none

/-! ## Trial outcomes

Modelled from the spec (§3): a trial yields either an estimate or the
outcome of one or more named hypothesis tests applied at significance
level α. -/

structure TestOutcome where
  family : String
  statistic : ℚ
  p_value : ℚ
  reject : Bool
deriving DecidableEq

inductive TrialOutcome where
  | estimate (value : ℚ)
  | test (results : List TestOutcome)
deriving DecidableEq

/-- The test outcomes a trial carries (empty for an estimate trial). -/
def TrialOutcome.tests : TrialOutcome → List TestOutcome
  | .estimate _ => []
  | .test rs => rs

/-- Modelled from the spec: every `TestOutcome` is produced by comparing
its p-value against the run's significance level α (§3). -/
def mkTestOutcome (family : String) (statistic p alpha : ℚ) : TestOutcome :=
  ⟨family, statistic, p, decide (p < alpha)⟩

/-! ## Statistic reducers

Modelled from the spec (§4.3).  The paired reducer computes a paired
t-test statistic (represented by its square, which is rational) and the
Wilcoxon signed-rank statistic with mid-rank ties and zero-difference
exclusion.  The spec gives no closed p-value formula; p-values are
concrete monotone rational surrogates of the statistics, which no claim
constrains beyond the `reject == (p_value < α)` production invariant. -/

/-- Arithmetic mean of a rational sample. -/
def listMean (l : List ℚ) : ℚ := l.sum / l.length

/-- Sample variance (denominator `n - 1`). -/
def sampleVar (l : List ℚ) : ℚ :=
  (l.map (fun x => (x - listMean l) ^ 2)).sum / ((l.length : ℚ) - 1)

/-- Square of the one-sample t statistic of the differences:
`t² = n · mean² / sampleVar`. -/
def tSquared (d : List ℚ) : ℚ :=
  (d.length : ℚ) * listMean d ^ 2 / sampleVar d

/-- Monotone rational p-value surrogate for the squared t statistic. -/
def pFromT2 (t2 : ℚ) : ℚ := 1 / (1 + t2)

/-- Mid-rank of value `v` within the multiset `l`: the number of strictly
smaller elements plus half of `(count of elements equal to v) + 1`, so a
tied group receives the average of the ranks it occupies. -/
def midrank (l : List ℚ) (v : ℚ) : ℚ :=
  (l.countP (fun w => decide (w < v)) : ℚ) + ((l.countP (fun w => decide (w = v)) : ℚ) + 1) / 2

/-- Absolute values of the nonzero differences: zero differences are
excluded from the ranked set per the conventional signed-rank definition. -/
def absNonzero (d : List ℚ) : List ℚ :=
  (d.filter (fun x => decide (x ≠ 0))).map (fun x => |x|)

/-- Sum of mid-ranks of the positive differences (`W⁺`). -/
def wPlus (d : List ℚ) : ℚ :=
  (((d.filter (fun x => decide (x ≠ 0))).filter (fun x => decide (0 < x))).map
    (fun x => midrank (absNonzero d) |x|)).sum

/-- The Wilcoxon signed-rank statistic: `min(W⁺, W⁻)` over the nonzero
differences, with mid-ranks for tied absolute differences. -/
def signedRankStat (d : List ℚ) : ℚ :=
  let m : ℚ := ((d.filter (fun x => decide (x ≠ 0))).length : ℚ)
  let total : ℚ := m * (m + 1) / 2
  min (wPlus d) (total - wPlus d)

/-- Monotone rational p-value surrogate for the signed-rank statistic. -/
def wilcoxonP (d : List ℚ) : ℚ :=
  let m : ℚ := ((d.filter (fun x => decide (x ≠ 0))).length : ℚ)
  if m = 0 then 1 else 2 * signedRankStat d / (m * (m + 1) / 2)

/-! ## Paired-demo configuration, validation and Trial Runner

Modelled from the spec (§4.4, §6, §7): configuration is validated
synchronously before any sampling; the Trial Runner then executes exactly
`trials` independent trials, each drawing its own pair of samples and
applying both tests to the same drawn pair. -/

structure PairedConfig where
  mu1 : ℚ
  sigma1 : ℚ
  mu2 : ℚ
  sigma2 : ℚ
  n : ℤ
  trials : ℤ
  alpha : ℚ
deriving DecidableEq

/-- The domain of a paired-demo configuration: positive scales, positive
sample size, at least one trial, `α ∈ (0,1)`. -/
def PairedOk (c : PairedConfig) : Prop :=
  0 < c.sigma1 ∧ 0 < c.sigma2 ∧ 0 < c.n ∧ 1 ≤ c.trials ∧ 0 < c.alpha ∧ c.alpha < 1

instance (c : PairedConfig) : Decidable (PairedOk c) := by
  unfold PairedOk; infer_instance

/-- Modelled from the spec: configuration validation, checking each field
against its domain in order and raising `InvalidParameterError` on the
first violation (§7). -/
def validatePaired (c : PairedConfig) : Except InvalidParameterError Unit :=
  if c.sigma1 ≤ 0 then Except.error ⟨"sigma1 must be positive"⟩
  else if c.sigma2 ≤ 0 then Except.error ⟨"sigma2 must be positive"⟩
  else if c.n ≤ 0 then Except.error ⟨"n must be a positive integer"⟩
  else if c.trials < 1 then Except.error ⟨"trial count must be at least 1"⟩
  else if c.alpha ≤ 0 then Except.error ⟨"alpha must lie in (0,1)"⟩
  else if 1 ≤ c.alpha then Except.error ⟨"alpha must lie in (0,1)"⟩
  else Except.ok ()

/-- One paired trial: draw the two samples, form the paired differences,
and apply both the t-test and the signed-rank test to the same pair. -/
def pairedTrial (c : PairedConfig) (g : Gen) : TrialOutcome × Gen :=
  let x := variates (.normal c.mu1 c.sigma1) g c.n.toNat
  let y := variates (.normal c.mu2 c.sigma2) x.2 c.n.toNat
  let d := List.zipWith (fun a b => a - b) x.1 y.1
  let t2 := tSquared d
  (TrialOutcome.test
      [mkTestOutcome "t-test" t2 (pFromT2 t2) c.alpha,
       mkTestOutcome "wilcoxon" (signedRankStat d) (wilcoxonP d) c.alpha],
   y.2)

/-- Run `n` independent trials of `f`, threading the generator state and
recording the outcomes in generation order. -/
def runTrials (f : Gen → TrialOutcome × Gen) : Nat → Gen → List TrialOutcome × Gen
  | 0, g => ([], g)
  | n + 1, g =>
      let r := f g
      let rest := runTrials f n r.2
      (r.1 :: rest.1, rest.2)

/-- Modelled from the spec: `run(config) -> TrialSeries` — validate the
configuration first, then execute exactly `trials` trials (§4.4). -/
def runPaired (c : PairedConfig) (g : Gen) :
    Except InvalidParameterError (List TrialOutcome × Gen) :=
  match validatePaired c with
  | .error e => Except.error e
  | .ok _ => Except.ok (runTrials (pairedTrial c) c.trials.toNat g)

/-- Whether every test outcome of a series has its reject flag equal to
the comparison of its p-value against `alpha`. -/
def allRejectConsistent (alpha : ℚ) (series : List TrialOutcome) : Bool :=
  series.all (fun o => o.tests.all (fun t => t.reject == decide (t.p_value < alpha)))

/-- The length of the series a successful run returns, if any. -/
def okSeriesLength (e : Except InvalidParameterError (List TrialOutcome × Gen)) : Option Nat :=
  match e with
  | .ok r => some r.1.length
  | .error _ => none

/-! ## Aggregator

Modelled from the spec (§4.5): summarize a TrialSeries into the empirical
mean/variance of the recorded estimates and, for each test family, the
empirical rejection rate. -/

structure AggregateResult where
  count : Nat
  estMean : ℚ
  estVar : ℚ
  rejRate : String → ℚ

/-- The estimate values recorded in a series, in order. -/
def estimateValues (series : List TrialOutcome) : List ℚ :=
  series.filterMap (fun o => match o with | .estimate v => some v | .test _ => none)

/-- How many rejections of family `fam` one trial outcome contributes. -/
def rejWeight (fam : String) (o : TrialOutcome) : Nat :=
  o.tests.countP (fun t => fam == t.family && t.reject)

/-- Count of rejections of family `fam` across the whole series, defined
over the flattened list of all test outcomes of the series. -/
def countRejects (fam : String) (series : List TrialOutcome) : Nat :=
  (series.map TrialOutcome.tests).flatten.countP (fun t => fam == t.family && t.reject)

/-- Modelled from the spec: `summarize(series) -> AggregateResult` (§4.5).
The rejection rate of each family is accumulated per trial and divided by
the series length. -/
def summarize (series : List TrialOutcome) : AggregateResult :=
  { count := series.length
    estMean := listMean (estimateValues series)
    estVar := sampleVar (estimateValues series)
    rejRate := fun fam => ((series.map (rejWeight fam)).sum : ℚ) / (series.length : ℚ) }

/-- The series a successful run returns, if any. -/
def okSeries (e : Except InvalidParameterError (List TrialOutcome × Gen)) :
    Option (List TrialOutcome) :=
  match e with
  | .ok r => some r.1
  | .error _ => none

/-! ## Concrete data for witnesses -/

/-- A valid paired-demo configuration used as a concrete witness input. -/
def cfgW : PairedConfig :=
  { mu1 := 0, sigma1 := 1, mu2 := 0, sigma2 := 1, n := 1, trials := 1, alpha := 1 / 20 }

/-- The series the paired run at `cfgW` from seed 7 produces. -/
def seriesW : List TrialOutcome := (runTrials (pairedTrial cfgW) 1 (mkGen 7)).1

/-- The generator state after the paired run at `cfgW` from seed 7. -/
def genW : Gen := (runTrials (pairedTrial cfgW) 1 (mkGen 7)).2

/-- A concrete series of test outcomes used as a witness input. -/
def seriesA : List TrialOutcome :=
  [TrialOutcome.test [⟨"t-test", 1, 0, true⟩, ⟨"wilcoxon", 1, 1, false⟩],
   TrialOutcome.test [⟨"t-test", 1, 1, false⟩, ⟨"wilcoxon", 1, 0, true⟩]]

/-- A concrete mixed series used as a witness input for aggregation. -/
def seriesB1 : List TrialOutcome :=
  [TrialOutcome.estimate 1, TrialOutcome.estimate 2,
   TrialOutcome.test [⟨"t-test", 1, 0, true⟩]]

/-- A permutation of `seriesB1`. -/
def seriesB2 : List TrialOutcome :=
  [TrialOutcome.test [⟨"t-test", 1, 0, true⟩],
   TrialOutcome.estimate 2, TrialOutcome.estimate 1]

/-! ## Helper lemmas -/

theorem rawDraw_length (g : Gen) (n : Nat) : (rawDraw g n).1.length = n := by
  induction n generalizing g with
  | zero => rfl
  | succ k ih => simp [rawDraw, ih]

theorem rawDraw_eq_stream (m : Nat) : ∀ s : Nat,
    rawDraw ⟨s⟩ m =
      ((List.range m).map (fun k => lcgNext^[k + 1] s), ⟨lcgNext^[m] s⟩) := by
  induction m with
  | zero => intro s; rfl
  | succ k ih =>
      intro s
      simp only [rawDraw, ih (lcgNext s)]
      simp [List.range_succ_eq_map, List.map_map, Function.comp_def,
        Function.iterate_succ_apply]

theorem variates_length (spec : DistributionSpec) (g : Gen) (n : Nat) :
    (variates spec g n).1.length = n := by
  simp [variates, rawDraw_length]

theorem runTrials_length (f : Gen → TrialOutcome × Gen) (n : Nat) : ∀ g : Gen,
    (runTrials f n g).1.length = n := by
  induction n with
  | zero => intro g; rfl
  | succ k ih => intro g; simp [runTrials, ih]

theorem validatePaired_ok_iff (c : PairedConfig) :
    validatePaired c = Except.ok () ↔ PairedOk c := by
  unfold validatePaired PairedOk
  split_ifs with h1 h2 h3 h4 h5 h6
  · exact iff_of_false (by simp) (fun hc => by linarith [hc.1])
  · exact iff_of_false (by simp) (fun hc => by linarith [hc.2.1])
  · exact iff_of_false (by simp) (fun hc => by linarith [hc.2.2.1])
  · exact iff_of_false (by simp) (fun hc => by linarith [hc.2.2.2.1])
  · exact iff_of_false (by simp) (fun hc => by linarith [hc.2.2.2.2.1])
  · exact iff_of_false (by simp) (fun hc => by linarith [hc.2.2.2.2.2])
  · push_neg at h1 h2 h3 h4 h5 h6
    exact iff_of_true rfl ⟨h1, h2, h3, h4, h5, h6⟩

theorem pairedTrial_consistent (c : PairedConfig) (g : Gen) :
    (pairedTrial c g).1.tests.all
      (fun t => t.reject == decide (t.p_value < c.alpha)) = true := by
  simp [pairedTrial, TrialOutcome.tests, mkTestOutcome]

theorem allRejectConsistent_runTrials (c : PairedConfig) (n : Nat) : ∀ g : Gen,
    allRejectConsistent c.alpha (runTrials (pairedTrial c) n g).1 = true := by
  induction n with
  | zero => intro g; rfl
  | succ k ih =>
      intro g
      simp only [runTrials, allRejectConsistent, List.all_cons, Bool.and_eq_true]
      refine ⟨pairedTrial_consistent c g, ?_⟩
      have := ih (pairedTrial c g).2
      simpa [allRejectConsistent] using this

theorem runPaired_ok_series (c : PairedConfig) (g : Gen) (series : List TrialOutcome)
    (h : okSeries (runPaired c g) = some series) :
    series = (runTrials (pairedTrial c) c.trials.toNat g).1 := by
  unfold runPaired at h
  cases hv : validatePaired c with
  | error e => rw [hv] at h; simp [okSeries] at h
  | ok u =>
      rw [hv] at h
      simp [okSeries] at h
      exact h.symm

theorem countP_flatten_sum {α : Type} (p : α → Bool) (L : List (List α)) :
    L.flatten.countP p = (L.map (List.countP p)).sum := by
  rw [List.countP_flatten]

theorem rawDraw_fst (m s : Nat) :
    (rawDraw ⟨s⟩ m).1 = (List.range m).map (fun k => lcgNext^[k + 1] s) := by
  rw [rawDraw_eq_stream]

/-! ## Claim theorems -/

/-- C1: for every TestOutcome produced within a single paired run, the
reject flag equals the comparison of the p-value against the run's
significance level α. -/
theorem run_reject_iff_p_lt_alpha (c : PairedConfig) (g : Gen)
    (series : List TrialOutcome) (h : okSeries (runPaired c g) = some series) :
    allRejectConsistent c.alpha series = true := by
  rw [runPaired_ok_series c g series h]
  exact allRejectConsistent_runTrials c c.trials.toNat g

theorem run_reject_iff_p_lt_alpha_witness :
    okSeries (runPaired cfgW (mkGen 7)) = some seriesW ∧
    allRejectConsistent cfgW.alpha seriesW = true := by
  have hval : validatePaired cfgW = Except.ok () := by norm_num [validatePaired, cfgW]
  have hrun : okSeries (runPaired cfgW (mkGen 7)) = some seriesW := by
    unfold runPaired
    rw [hval]
    rfl
  exact ⟨hrun, run_reject_iff_p_lt_alpha cfgW (mkGen 7) seriesW hrun⟩

/-- C2 counterexample: the notebook's documented configuration records are
not the records the spec (§6) enumerates — the general CLT demo documents
an additional `density` flag, and the paired-test and outlier demos
document no `alpha` field. -/
theorem config_fields_ne_spec :
    cltParams ≠ specCLTConfig ∧ pairedParams ≠ specPairedConfig ∧
    outlierParams ≠ specOutlierConfig := by
  refine ⟨?_, ?_, ?_⟩ <;> decide

/-- C2 (amended): the binomial demo's configuration is exactly the spec's
`{n, p}`; the general CLT demo's configuration is the spec's
`{distribution, outer_n, inner_n}` plus a `density` display flag; the
paired-test and outlier demos' configurations are the spec's records
without the `alpha` field. -/
theorem config_fields_amended :
    binomialParams = specBinomialConfig ∧
    cltParams = specCLTConfig ++ ["density"] ∧
    pairedParams ++ ["alpha"] = specPairedConfig ∧
    outlierParams ++ ["alpha"] = specOutlierConfig := by
  refine ⟨rfl, rfl, rfl, rfl⟩

/-- C3: for every valid DistributionSpec and every positive `n`,
`Sampler.draw` succeeds and returns a sample of length exactly `n`. -/
theorem draw_length_eq (spec : DistributionSpec) (g : Gen) (n : ℤ)
    (hv : spec.valid = true) (hn : 0 < n) :
    (okSample (Sampler.draw spec g n)).map List.length = some n.toNat := by
  unfold Sampler.draw
  rw [if_pos hv, if_pos hn]
  simp [okSample, variates, rawDraw_length]

theorem draw_length_eq_witness :
    (DistributionSpec.uniform 0 1).valid = true ∧ (0 : ℤ) < 5 ∧
    (okSample (Sampler.draw (DistributionSpec.uniform 0 1) (mkGen 1) 5)).map List.length =
      some (5 : ℤ).toNat :=
  ⟨by decide, by decide,
   draw_length_eq (DistributionSpec.uniform 0 1) (mkGen 1) 5 (by decide) (by decide)⟩

/-- C4: for every configuration in its domain (so with trial count
`T ≥ 1`), the paired run executes exactly `T` trials and returns a
series of length exactly `T`. -/
theorem run_length_eq_trials (c : PairedConfig) (g : Gen) (h : PairedOk c) :
    okSeriesLength (runPaired c g) = some c.trials.toNat := by
  have hv : validatePaired c = Except.ok () := (validatePaired_ok_iff c).mpr h
  unfold runPaired
  rw [hv]
  simp [okSeriesLength, runTrials_length]

theorem run_length_eq_trials_witness :
    PairedOk cfgW ∧ okSeriesLength (runPaired cfgW (mkGen 7)) = some cfgW.trials.toNat := by
  have hOk : PairedOk cfgW := by norm_num [PairedOk, cfgW]
  exact ⟨hOk, run_length_eq_trials cfgW (mkGen 7) hOk⟩

/-- C5: for every series of length at least 1 and every test family, the
aggregator's empirical rejection rate for that family equals the count of
that family's rejections across the series divided by the series length. -/
theorem summarize_rejection_rate (series : List TrialOutcome) (fam : String)
    (_h : 1 ≤ series.length) :
    (summarize series).rejRate fam = (countRejects fam series : ℚ) / (series.length : ℚ) := by
  have hproj : (summarize series).rejRate fam =
      ((series.map (rejWeight fam)).sum : ℚ) / (series.length : ℚ) := rfl
  have key : countRejects fam series = (series.map (rejWeight fam)).sum := by
    unfold countRejects rejWeight
    rw [countP_flatten_sum, List.map_map]
    rfl
  rw [hproj, key]

theorem summarize_rejection_rate_witness :
    1 ≤ seriesA.length ∧
    (summarize seriesA).rejRate "t-test" =
      (countRejects "t-test" seriesA : ℚ) / (seriesA.length : ℚ) :=
  ⟨by decide, summarize_rejection_rate seriesA "t-test" (by decide)⟩

/-- C6: in the signed-rank reducer, tied absolute differences receive the
average rank of their tied group and zero differences are excluded; on
the fixed differences `[1, -1, 2, 2, -3]` the ranked set is
`[1, 1, 2, 2, 3]` with mid-ranks `[3/2, 3/2, 7/2, 7/2, 5]`, and the
statistic `min(W⁺, W⁻)` equals the hand-computed value `13/2`
(`W⁺ = 3/2 + 7/2 + 7/2 = 17/2`, `W⁻ = 15 - 17/2 = 13/2`); prepending a
zero difference leaves the statistic unchanged. -/
theorem signed_rank_midranks_fixed_input :
    absNonzero [1, -1, 2, 2, -3] = [1, 1, 2, 2, 3] ∧
    (absNonzero [1, -1, 2, 2, -3]).map (midrank (absNonzero [1, -1, 2, 2, -3])) =
      [3 / 2, 3 / 2, 7 / 2, 7 / 2, 5] ∧
    signedRankStat [1, -1, 2, 2, -3] = 13 / 2 ∧
    signedRankStat [0, 1, -1, 2, 2, -3] = 13 / 2 := by
  refine ⟨by decide, ?_, ?_, ?_⟩ <;>
    norm_num [signedRankStat, wPlus, absNonzero, midrank, min_def]

/-- C7: `InvalidParameterError` is raised exactly when a configuration
value is outside its domain — validation succeeds iff the configuration
is in-domain, a run fails exactly when validation fails (so never
mid-run once validation passed), and `Sampler.draw` with `n ≤ 0` fails. -/
theorem invalid_parameter_validation (c : PairedConfig) (g : Gen)
    (spec : DistributionSpec) (n : ℤ) (hn : n ≤ 0) :
    (validatePaired c = Except.ok () ↔ PairedOk c) ∧
    exceptOk (runPaired c g) = exceptOk (validatePaired c) ∧
    exceptOk (Sampler.draw spec g n) = false := by
  refine ⟨validatePaired_ok_iff c, ?_, ?_⟩
  · unfold runPaired
    cases hv : validatePaired c with
    | error e => rfl
    | ok u => rfl
  · unfold Sampler.draw
    have hn2 : ¬ (0 < n) := not_lt.mpr hn
    by_cases hs : spec.valid = true
    · rw [if_pos hs, if_neg hn2]; rfl
    · rw [if_neg hs]; rfl

theorem invalid_parameter_validation_witness :
    ((-2 : ℤ) ≤ 0) ∧
    ((validatePaired cfgW = Except.ok () ↔ PairedOk cfgW) ∧
     exceptOk (runPaired cfgW (mkGen 0)) = exceptOk (validatePaired cfgW) ∧
     exceptOk (Sampler.draw (DistributionSpec.uniform 0 1) (mkGen 0) (-2)) = false) :=
  ⟨by decide,
   invalid_parameter_validation cfgW (mkGen 0) (DistributionSpec.uniform 0 1) (-2) (by decide)⟩

/-- C8: the aggregator is order-independent — summarizing any permutation
of a series yields the same AggregateResult. -/
theorem summarize_perm_invariant (s1 s2 : List TrialOutcome) (h : s1.Perm s2) :
    summarize s1 = summarize s2 := by
  have hlen : s1.length = s2.length := h.length_eq
  have hest : (estimateValues s1).Perm (estimateValues s2) := h.filterMap _
  have hmean : listMean (estimateValues s1) = listMean (estimateValues s2) := by
    unfold listMean
    rw [hest.sum_eq, hest.length_eq]
  have hvar : sampleVar (estimateValues s1) = sampleVar (estimateValues s2) := by
    unfold sampleVar
    simp only [hmean, hest.length_eq]
    rw [(hest.map (fun x => (x - listMean (estimateValues s2)) ^ 2)).sum_eq]
  unfold summarize
  congr 1
  funext fam
  rw [(h.map (rejWeight fam)).sum_eq, hlen]

theorem summarize_perm_invariant_witness :
    seriesB1.Perm seriesB2 ∧ summarize seriesB1 = summarize seriesB2 :=
  ⟨by decide, summarize_perm_invariant seriesB1 seriesB2 (by decide)⟩

/-- C9: sampling is deterministic given the injected seed — for every
valid DistributionSpec and positive `n`, the sample drawn from the
generator seeded with `seed` is exactly the sequence of stream variates
that `seed` alone determines, so two calls with the same injected seed
return identical sequences. -/
theorem draw_seed_deterministic (spec : DistributionSpec) (seed : Nat) (n : ℤ)
    (hv : spec.valid = true) (hn : 0 < n) :
    okSample (Sampler.draw spec (mkGen seed) n) =
      some ((List.range n.toNat).map (streamVariate spec seed)) := by
  unfold Sampler.draw
  rw [if_pos hv, if_pos hn]
  unfold okSample
  simp only [variates, mkGen]
  rw [rawDraw_fst, List.map_map]
  rfl

theorem draw_seed_deterministic_witness :
    (DistributionSpec.uniform 0 1).valid = true ∧ (0 : ℤ) < 2 ∧
    okSample (Sampler.draw (DistributionSpec.uniform 0 1) (mkGen 3) 2) =
      some ((List.range (2 : ℤ).toNat).map (streamVariate (DistributionSpec.uniform 0 1) 3)) :=
  ⟨by decide, by decide,
   draw_seed_deterministic (DistributionSpec.uniform 0 1) 3 2 (by decide) (by decide)⟩

/-- C10: every engine entry point the notebook invokes is called with
zero arguments and its return value is not bound to any name, and the
four named entry points are among those calls. -/
theorem notebook_calls_zero_arg_discarded :
    engineCalls.all (fun c => c.argCount == 0 && !c.resultBound) = true ∧
    (["binomial_interactive", "CLT_interactive", "paired_sample_interactive",
      "outlier_interactive"].all (fun f => engineCalls.any (fun c => c.fn == f))) = true := by
  refine ⟨?_, ?_⟩ <;> decide

end CLTDemo
